import Mathlib

/-!
# Verification of the gamification match engine and entitlement ledger

Shallow embedding of `backend/app/services/match_service.py`,
`backend/app/services/wallet_service.py` and the parts of
`backend/app/services/question_service.py` the match engine calls.

Modelling conventions:
* Mongo ObjectIds (user, category, question ids) are `Nat`.
* Timestamps are `Nat` (`now` is passed explicitly to each mutating call).
* Each service function is a pure function; a state-mutating call takes the
  current match document (`Option Match`, the result of `get_match_internal`)
  and returns `Except AppErr (Match × response)`.  A raised `AppError` is an
  `.error` result; since no state is returned on error, a failed call leaves
  the stored document untouched, exactly as in the source where `raise`
  happens before any `update_one`.
* The question collection is a `List Question`; `find_one` is `List.find?`
  (first document matching the filter, matching Mongo's deterministic
  first-match semantics relied on by the repository's tests).
-/

/-- Match lifecycle status (`status` field: "active" / "finished" /
"abandoned"). -/
inductive Status where
  | active
  | finished
  | abandoned
deriving DecidableEq

/-- `Literal[1, 2, 3]` — the question/round level. -/
inductive Level where
  | one
  | two
  | three
deriving DecidableEq

/-- Judge selection for a round: `"TEAM_A" | "TEAM_B" | "NO_ONE"`. -/
inductive Judge where
  | TEAM_A
  | TEAM_B
  | NO_ONE
deriving DecidableEq

/-- A scored team: `scored_team` is `"A"`, `"B"` or `None`. -/
inductive Team where
  | A
  | B
deriving DecidableEq

/-- Winner result in the finish payload: `TEAM_A`, `TEAM_B` or `DRAW`. -/
inductive WinnerResult where
  | TEAM_A
  | TEAM_B
  | DRAW
deriving DecidableEq

/-- The typed failures (`AppError` codes) raised by the embedded services,
carrying the structured detail fields the source puts in `details`. -/
inductive AppErr where
  | matchNotFound
  | matchNotActive
  | matchAlreadyFinished
  | invalidCategories (category_id : Nat)
  | levelQuotaExceeded (category_id : Nat) (level : Level) (max_per_level : Nat)
  | noQuestionsLeftForLevel (category_id : Nat) (level : Level)
  | roundNotFound (round_no : Nat)
  | roundAlreadyJudged (round_no : Nat)
  | questionNotFound
  | noRoundsAvailable
deriving DecidableEq

/-- A question's `hint` sub-document: `{enabled, content}`. -/
structure Hint where
  enabled : Bool
  content : Option String
deriving DecidableEq

/-- A question document as stored in the questions collection. -/
structure Question where
  id : Nat
  category_id : Nat
  level : Level
  points : Nat
  prompt : String
  hint : Hint
  answer : Option String
  status : String
deriving DecidableEq

/-- One entry of `progress.usage`: questions already served for a
(category, level) pair. -/
structure UsageEntry where
  category_id : Nat
  level : Level
  used_question_ids : List Nat
deriving DecidableEq

/-- One round record inside `match.rounds`. -/
structure Round where
  round_no : Nat
  category_id : Nat
  level : Level
  points : Nat
  question_id : Nat
  judge_selection : Option Judge
  scored_team : Option Team
  scored_points : Nat
  created_at : Nat
deriving DecidableEq

/-- One team slot (`teams.A` / `teams.B`). -/
structure TeamInfo where
  name : String
  avatar_key : Option String
  score : Nat
deriving DecidableEq

/-- One entry of `settings.levels`. -/
structure LevelSetting where
  level : Level
  points : Nat
  questions_per_level : Nat
deriving DecidableEq

/-- The per-match `settings` document. -/
structure Settings where
  timer_seconds : Nat
  max_categories : Nat
  levels : List LevelSetting
  allow_negative_points : Bool
deriving DecidableEq

/-- A match document. -/
structure Match where
  created_by_user_id : Nat
  mode : String
  status : Status
  selected_category_ids : List Nat
  teamA : TeamInfo
  teamB : TeamInfo
  settings : Settings
  usage : List UsageEntry
  rounds : List Round
  finished_at : Option Nat
  created_at : Nat
  updated_at : Nat
deriving DecidableEq

/-- A user's entitlements sub-document (`wallet_service` reads
`entitlements.free_round_used` and `entitlements.rounds_balance`).
The balance is an `Int` because `add_rounds` may add arbitrary deltas. -/
structure UserRec where
  free_round_used : Bool
  rounds_balance : Int
deriving DecidableEq

/-- `LEVEL_POINTS = {1: 100, 2: 200, 3: 500}`. -/
def LEVEL_POINTS : Level → Nat
  | .one => 100
  | .two => 200
  | .three => 500

/-- `DEFAULT_QUESTIONS_PER_LEVEL = 2`. -/
def DEFAULT_QUESTIONS_PER_LEVEL : Nat := 2

/-- `_default_settings(timer_seconds)`; `timer_seconds or 10` treats both
`None` and `0` as absent. -/
def default_settings (timer_seconds : Option Nat) : Settings :=
  { timer_seconds :=
      match timer_seconds with
      | none => 10
      | some t => if t = 0 then 10 else t
    max_categories := 6
    levels :=
      [ { level := .one, points := 100, questions_per_level := 2 },
        { level := .two, points := 200, questions_per_level := 2 },
        { level := .three, points := 500, questions_per_level := 2 } ]
    allow_negative_points := false }

/-- `_get_questions_per_level(match_doc, level)`: max questions allowed per
(category, level) from `settings.levels`; default 2; never below 1. -/
def questions_per_level_of : List LevelSetting → Level → Nat
  | [], _ => DEFAULT_QUESTIONS_PER_LEVEL
  | e :: rest, level =>
      if e.level = level then max 1 e.questions_per_level
      else questions_per_level_of rest level

def get_questions_per_level (s : Settings) (level : Level) : Nat :=
  questions_per_level_of s.levels level

/-- `_get_used_question_ids_for_level`: used question ids of the first usage
entry matching (category, level), else `[]`. -/
def get_used_question_ids_for_level : List UsageEntry → Nat → Level → List Nat
  | [], _, _ => []
  | u :: rest, category_id, level =>
      if u.category_id = category_id ∧ u.level = level then u.used_question_ids
      else get_used_question_ids_for_level rest category_id level

/-- `_ensure_usage_entry`: append `question_id` to the first usage entry for
(category, level) unless already present; create the entry if missing. -/
def ensure_usage_entry : List UsageEntry → Nat → Level → Nat → List UsageEntry
  | [], category_id, level, question_id =>
      [{ category_id := category_id, level := level, used_question_ids := [question_id] }]
  | u :: rest, category_id, level, question_id =>
      if u.category_id = category_id ∧ u.level = level then
        (if question_id ∈ u.used_question_ids then u
         else { u with used_question_ids := u.used_question_ids ++ [question_id] }) :: rest
      else
        u :: ensure_usage_entry rest category_id level question_id

/-- `pick_next_question(category_id, level, used_question_ids)`: first active
question of the given category and level (with the level-derived points)
whose id is not among the used ids. -/
def pick_next_question : List Question → Nat → Level → List Nat → Option Question
  | [], _, _, _ => none
  | q :: rest, category_id, level, used_question_ids =>
      if q.category_id = category_id ∧ q.level = level ∧
          q.points = LEVEL_POINTS level ∧ q.status = "active" ∧
          ¬ q.id ∈ used_question_ids then some q
      else pick_next_question rest category_id level used_question_ids

/-- `get_question_hint(question_id)`: the question's `hint` document, `none`
if the question is missing. -/
def find_question : List Question → Nat → Option Question
  | [], _ => none
  | q :: rest, question_id =>
      if q.id = question_id then some q else find_question rest question_id

def get_question_hint (qstore : List Question) (question_id : Nat) : Option Hint :=
  (find_question qstore question_id).map Question.hint

/-- `get_question_answer(question_id)`: `{"answer": ...}`, `none` if the
question is missing. -/
def get_question_answer (qstore : List Question) (question_id : Nat) :
    Option (Option String) :=
  (find_question qstore question_id).map Question.answer

/-- The match document built by `create_match` (lines 123-140), after
category validation and the entitlement debit have succeeded. -/
def create_match (user_id : Nat) (selected_category_ids : List Nat)
    (teamA_name teamB_name : String) (timer_seconds : Option Nat) (now : Nat) :
    Match :=
  { created_by_user_id := user_id
    mode := "team"
    status := .active
    selected_category_ids := selected_category_ids
    teamA := { name := teamA_name, avatar_key := none, score := 0 }
    teamB := { name := teamB_name, avatar_key := none, score := 0 }
    settings := default_settings timer_seconds
    usage := []
    rounds := []
    finished_at := none
    created_at := now
    updated_at := now }

/-- The `round_entry` record pushed by `next_question` (lines 299-309). -/
def mk_round (category_id : Nat) (level : Level) (question_id round_no now : Nat) :
    Round :=
  { round_no := round_no
    category_id := category_id
    level := level
    points := LEVEL_POINTS level
    question_id := question_id
    judge_selection := none
    scored_team := none
    scored_points := 0
    created_at := now }

/-- The question payload returned by `next_question`: only the id, the
prompt, and the `hint_available` flag. -/
structure QuestionPayload where
  id : Nat
  prompt : String
  hint_available : Bool
deriving DecidableEq

/-- The success payload of `next_question` (round metadata plus the question
payload; the echoed `match_id` string is omitted). -/
structure NextQuestionResponse where
  round_no : Nat
  timer_seconds : Nat
  category_id : Nat
  level : Level
  points : Nat
  question : QuestionPayload
deriving DecidableEq

/-- `next_question(match_id, user_id, category_id, level)`.  Takes the
question pool and the looked-up match document (`get_match_internal`). -/
def next_question (pool : List Question) (mOpt : Option Match) (user_id : Nat)
    (category_id : Nat) (level : Level) (now : Nat) :
    Except AppErr (Match × NextQuestionResponse) :=
  match mOpt with
  | none => .error .matchNotFound
  | some m =>
    if m.created_by_user_id ≠ user_id then .error .matchNotFound
    else if m.status ≠ .active then .error .matchNotActive
    else if ¬ category_id ∈ m.selected_category_ids then
      .error (.invalidCategories category_id)
    else
      let max_per_level := get_questions_per_level m.settings level
      let used := get_used_question_ids_for_level m.usage category_id level
      if used.length ≥ max_per_level then
        .error (.levelQuotaExceeded category_id level max_per_level)
      else
        match pick_next_question pool category_id level used with
        | none => .error (.noQuestionsLeftForLevel category_id level)
        | some q =>
          let round_no := m.rounds.length + 1
          let m' : Match :=
            { m with
              rounds := m.rounds ++ [mk_round category_id level q.id round_no now]
              usage := ensure_usage_entry m.usage category_id level q.id
              updated_at := now }
          .ok (m',
            { round_no := round_no
              timer_seconds := m.settings.timer_seconds
              category_id := category_id
              level := level
              points := LEVEL_POINTS level
              question :=
                { id := q.id, prompt := q.prompt, hint_available := q.hint.enabled } })

/-- `next((r for r in rounds_list if r.round_no == round_no), None)`. -/
def find_round : List Round → Nat → Option Round
  | [], _ => none
  | r :: rest, round_no =>
      if r.round_no = round_no then some r else find_round rest round_no

/-- `scored_team` derived from the judge selection. -/
def scored_team_for : Judge → Option Team
  | .TEAM_A => some .A
  | .TEAM_B => some .B
  | .NO_ONE => none

/-- `scored_points` derived from the judge selection and the round points. -/
def scored_points_for (sel : Judge) (points : Nat) : Nat :=
  match sel with
  | .TEAM_A => points
  | .TEAM_B => points
  | .NO_ONE => 0

/-- The positional `rounds.$` update of `judge_round`: set the judge fields
of the first round whose `round_no` matches. -/
def set_judge_fields : List Round → Nat → Judge → Option Team → Nat → List Round
  | [], _, _, _, _ => []
  | r :: rest, round_no, sel, st, sp =>
      if r.round_no = round_no then
        { r with judge_selection := some sel, scored_team := st, scored_points := sp } :: rest
      else
        r :: set_judge_fields rest round_no sel st sp

/-- The `last_round` part of the judge payload. -/
structure LastRound where
  round_no : Nat
  judge_selection : Judge
  scored_points : Nat
deriving DecidableEq

/-- The success payload of `judge_round`. -/
structure JudgeResponse where
  scoresA : Nat
  scoresB : Nat
  last_round : LastRound
deriving DecidableEq

/-- `judge_round(match_id, user_id, round_no, judge_selection)`. -/
def judge_round (mOpt : Option Match) (user_id round_no : Nat) (sel : Judge)
    (now : Nat) : Except AppErr (Match × JudgeResponse) :=
  match mOpt with
  | none => .error .matchNotFound
  | some m =>
    if m.created_by_user_id ≠ user_id then .error .matchNotFound
    else if m.status ≠ .active then .error .matchNotActive
    else
      match find_round m.rounds round_no with
      | none => .error (.roundNotFound round_no)
      | some r =>
        if r.judge_selection ≠ none then .error (.roundAlreadyJudged round_no)
        else
          let st := scored_team_for sel
          let sp := scored_points_for sel r.points
          let new_a := m.teamA.score + (if st = some Team.A then sp else 0)
          let new_b := m.teamB.score + (if st = some Team.B then sp else 0)
          let m' : Match :=
            { m with
              rounds := set_judge_fields m.rounds round_no sel st sp
              teamA := { m.teamA with score := new_a }
              teamB := { m.teamB with score := new_b }
              updated_at := now }
          .ok (m',
            { scoresA := new_a
              scoresB := new_b
              last_round :=
                { round_no := round_no, judge_selection := sel, scored_points := sp } })

/-- The `winner` part of the finish payload. -/
structure Winner where
  result : WinnerResult
  name : Option String
deriving DecidableEq

/-- The `summary` part of the finish payload. -/
structure Summary where
  teamA_correct : Nat
  teamB_correct : Nat
  no_one : Nat
  total_rounds : Nat
deriving DecidableEq

/-- The success payload of `finish_match`. -/
structure FinishResponse where
  scoresA : Nat
  scoresB : Nat
  winner : Winner
  summary : Summary
deriving DecidableEq

/-- The finish payload computed from the accumulated match state
(lines 400-439). -/
def mk_finish_response (m : Match) : FinishResponse :=
  let teamA_score := m.teamA.score
  let teamB_score := m.teamB.score
  let teamA_correct := m.rounds.countP (fun r => decide (r.judge_selection = some .TEAM_A))
  let teamB_correct := m.rounds.countP (fun r => decide (r.judge_selection = some .TEAM_B))
  let no_one := m.rounds.countP (fun r => decide (r.judge_selection = some .NO_ONE))
  let w : Winner :=
    if teamA_score > teamB_score then { result := .TEAM_A, name := some m.teamA.name }
    else if teamB_score > teamA_score then { result := .TEAM_B, name := some m.teamB.name }
    else { result := .DRAW, name := none }
  { scoresA := teamA_score
    scoresB := teamB_score
    winner := w
    summary :=
      { teamA_correct := teamA_correct
        teamB_correct := teamB_correct
        no_one := no_one
        total_rounds := m.rounds.length } }

/-- `finish_match(match_id, user_id)`. -/
def finish_match (mOpt : Option Match) (user_id now : Nat) :
    Except AppErr (Match × FinishResponse) :=
  match mOpt with
  | none => .error .matchNotFound
  | some m =>
    if m.created_by_user_id ≠ user_id then .error .matchNotFound
    else if m.status = .finished then .error .matchAlreadyFinished
    else
      .ok ({ m with status := .finished, finished_at := some now, updated_at := now },
           mk_finish_response m)

/-- The partial-field team update of `patch_teams` (the four optional `$set`
fields, plus `updated_at` when any field was given). -/
def apply_patch (m : Match) (teamA_name teamB_name avatar_keyA avatar_keyB : Option String)
    (now : Nat) : Match :=
  let m1 := match teamA_name with
    | some s => { m with teamA := { m.teamA with name := s } }
    | none => m
  let m2 := match teamB_name with
    | some s => { m1 with teamB := { m1.teamB with name := s } }
    | none => m1
  let m3 := match avatar_keyA with
    | some s => { m2 with teamA := { m2.teamA with avatar_key := some s } }
    | none => m2
  let m4 := match avatar_keyB with
    | some s => { m3 with teamB := { m3.teamB with avatar_key := some s } }
    | none => m3
  if teamA_name.isSome || teamB_name.isSome || avatar_keyA.isSome || avatar_keyB.isSome then
    { m4 with updated_at := now }
  else m4

/-- `patch_teams(match_id, user_id, ...)`; returns the updated match (its
projection via `get_match` is read-only). -/
def patch_teams (mOpt : Option Match) (user_id : Nat)
    (teamA_name teamB_name avatar_keyA avatar_keyB : Option String) (now : Nat) :
    Except AppErr Match :=
  match mOpt with
  | none => .error .matchNotFound
  | some m =>
    if m.created_by_user_id ≠ user_id then .error .matchNotFound
    else if m.status ≠ .active then .error .matchNotActive
    else .ok (apply_patch m teamA_name teamB_name avatar_keyA avatar_keyB now)

/-- `get_round_hint(match_id, user_id, round_no)`. -/
def get_round_hint (qstore : List Question) (mOpt : Option Match)
    (user_id round_no : Nat) : Except AppErr Hint :=
  match mOpt with
  | none => .error .matchNotFound
  | some m =>
    if m.created_by_user_id ≠ user_id then .error .matchNotFound
    else
      match find_round m.rounds round_no with
      | none => .error (.roundNotFound round_no)
      | some r =>
        match get_question_hint qstore r.question_id with
        | none => .error .questionNotFound
        | some h => .ok h

/-- `get_round_answer(match_id, user_id, round_no)`. -/
def get_round_answer (qstore : List Question) (mOpt : Option Match)
    (user_id round_no : Nat) : Except AppErr (Option String) :=
  match mOpt with
  | none => .error .matchNotFound
  | some m =>
    if m.created_by_user_id ≠ user_id then .error .matchNotFound
    else
      match find_round m.rounds round_no with
      | none => .error (.roundNotFound round_no)
      | some r =>
        match get_question_answer qstore r.question_id with
        | none => .error .questionNotFound
        | some a => .ok a

/-- `consume_round(user_id)`: the single conditional update
`update_one({_id, rounds_balance > 0}, $inc -1)`; `modified_count == 0`
(no user, or the balance guard fails) raises `NO_ROUNDS_AVAILABLE`. -/
def consume_round (u : Option UserRec) : Except AppErr UserRec :=
  match u with
  | none => .error .noRoundsAvailable
  | some rec =>
    if rec.rounds_balance > 0 then
      .ok { rec with rounds_balance := rec.rounds_balance - 1 }
    else .error .noRoundsAvailable

/-- `use_free_round(user_id)`: idempotently set `free_round_used := true`. -/
def use_free_round (u : UserRec) : UserRec :=
  { u with free_round_used := true }

/-- `can_start_match(user_id) -> (can_start, used_free_round)`; no user
record means `(False, False)`. -/
def can_start_match (u : Option UserRec) : Bool × Bool :=
  match u with
  | none => (false, false)
  | some rec =>
    if ¬ rec.free_round_used then (true, true)
    else if rec.rounds_balance > 0 then (true, false)
    else (false, false)

/-- Sum of `scored_points` over all rounds whose `judge_selection` is
non-null. -/
def scored_sum : List Round → Nat
  | [] => 0
  | r :: rest => (if r.judge_selection ≠ none then r.scored_points else 0) + scored_sum rest

/-- The score invariant: `teams.A.score + teams.B.score` equals the sum of
`scored_points` over all judged rounds. -/
def score_inv (m : Match) : Prop :=
  m.teamA.score + m.teamB.score = scored_sum m.rounds

/-- The quota invariant: for every (category, level) pair, the used-question
list never exceeds `questions_per_level`. -/
def quota_inv (m : Match) : Prop :=
  ∀ category_id level,
    (get_used_question_ids_for_level m.usage category_id level).length ≤
      get_questions_per_level m.settings level

/-- Match states reachable from creation by any sequence of successful
`next_question` / `judge_round` / `finish_match` / `patch_teams` calls. -/
inductive Reachable : Match → Prop where
  | create (user_id : Nat) (cids : List Nat) (a b : String) (t : Option Nat) (now : Nat) :
      Reachable (create_match user_id cids a b t now)
  | nextQ {m m' : Match} {resp : NextQuestionResponse}
      (pool : List Question) (user_id category_id : Nat) (level : Level) (now : Nat) :
      Reachable m →
      next_question pool (some m) user_id category_id level now = .ok (m', resp) →
      Reachable m'
  | judge {m m' : Match} {resp : JudgeResponse}
      (user_id round_no : Nat) (sel : Judge) (now : Nat) :
      Reachable m →
      judge_round (some m) user_id round_no sel now = .ok (m', resp) →
      Reachable m'
  | finish {m m' : Match} {resp : FinishResponse} (user_id now : Nat) :
      Reachable m →
      finish_match (some m) user_id now = .ok (m', resp) →
      Reachable m'
  | patch {m m' : Match} (user_id : Nat) (nA nB aA aB : Option String) (now : Nat) :
      Reachable m →
      patch_teams (some m) user_id nA nB aA aB now = .ok m' →
      Reachable m'

lemma scored_sum_append (l1 l2 : List Round) :
    scored_sum (l1 ++ l2) = scored_sum l1 + scored_sum l2 := by
  induction l1 with
  | nil => simp [scored_sum]
  | cons r rest ih => simp [scored_sum, ih, Nat.add_assoc]

lemma scored_sum_set_judge_fields (l : List Round) (n : Nat) (sel : Judge)
    (st : Option Team) (sp : Nat) (r : Round)
    (hf : find_round l n = some r)
    (hn : r.judge_selection = none) :
    scored_sum (set_judge_fields l n sel st sp) = scored_sum l + sp := by
  induction l with
  | nil => simp [find_round] at hf
  | cons a rest ih =>
    by_cases ha : a.round_no = n
    · rw [find_round, if_pos ha] at hf
      obtain rfl : a = r := by injection hf
      simp [set_judge_fields, ha, scored_sum, hn]
      omega
    · rw [find_round, if_neg ha] at hf
      simp [set_judge_fields, ha, scored_sum, ih hf]
      omega

lemma find_round_set_judge_fields (l : List Round) (n : Nat) (sel : Judge)
    (st : Option Team) (sp : Nat) (r : Round)
    (hf : find_round l n = some r) :
    find_round (set_judge_fields l n sel st sp) n =
      some { r with judge_selection := some sel, scored_team := st, scored_points := sp } := by
  induction l with
  | nil => simp [find_round] at hf
  | cons a rest ih =>
    by_cases ha : a.round_no = n
    · rw [find_round, if_pos ha] at hf
      obtain rfl : a = r := by injection hf
      simp [set_judge_fields, ha, find_round]
    · rw [find_round, if_neg ha] at hf
      simp only [set_judge_fields, if_neg ha]
      rw [find_round, if_neg ha]
      exact ih hf

lemma get_used_nil (cid : Nat) (lvl : Level) :
    get_used_question_ids_for_level [] cid lvl = [] := rfl

lemma get_used_cons_pos (u : UsageEntry) (rest : List UsageEntry) (cid : Nat)
    (lvl : Level) (h : u.category_id = cid ∧ u.level = lvl) :
    get_used_question_ids_for_level (u :: rest) cid lvl = u.used_question_ids := by
  rw [get_used_question_ids_for_level, if_pos h]

lemma get_used_cons_neg (u : UsageEntry) (rest : List UsageEntry) (cid : Nat)
    (lvl : Level) (h : ¬ (u.category_id = cid ∧ u.level = lvl)) :
    get_used_question_ids_for_level (u :: rest) cid lvl =
      get_used_question_ids_for_level rest cid lvl := by
  rw [get_used_question_ids_for_level, if_neg h]

lemma get_used_ensure_self (usage : List UsageEntry) (cid : Nat) (lvl : Level) (qid : Nat) :
    get_used_question_ids_for_level (ensure_usage_entry usage cid lvl qid) cid lvl =
      if qid ∈ get_used_question_ids_for_level usage cid lvl
      then get_used_question_ids_for_level usage cid lvl
      else get_used_question_ids_for_level usage cid lvl ++ [qid] := by
  induction usage with
  | nil =>
    rw [ensure_usage_entry, get_used_nil,
      get_used_cons_pos _ _ _ _ ⟨rfl, rfl⟩]
    simp
  | cons u rest ih =>
    by_cases hm : u.category_id = cid ∧ u.level = lvl
    · by_cases hq : qid ∈ u.used_question_ids
      · rw [ensure_usage_entry, if_pos hm, if_pos hq, get_used_cons_pos _ _ _ _ hm,
          if_pos hq]
      · rw [ensure_usage_entry, if_pos hm, if_neg hq, get_used_cons_pos _ _ _ _ hm,
          get_used_cons_pos
            ⟨u.category_id, u.level, u.used_question_ids ++ [qid]⟩ rest cid lvl
            ⟨hm.1, hm.2⟩,
          if_neg hq]
    · rw [ensure_usage_entry, if_neg hm,
        get_used_cons_neg _ _ _ _ hm, get_used_cons_neg _ _ _ _ hm]
      exact ih

lemma get_used_ensure_other (usage : List UsageEntry) (cid : Nat) (lvl : Level)
    (qid : Nat) (cid' : Nat) (lvl' : Level) (h : ¬ (cid' = cid ∧ lvl' = lvl)) :
    get_used_question_ids_for_level (ensure_usage_entry usage cid lvl qid) cid' lvl' =
      get_used_question_ids_for_level usage cid' lvl' := by
  induction usage with
  | nil =>
    rw [ensure_usage_entry, get_used_nil,
      get_used_cons_neg _ _ _ _ (by rintro ⟨e1, e2⟩; exact h ⟨e1.symm, e2.symm⟩),
      get_used_nil]
  | cons u rest ih =>
    by_cases hm : u.category_id = cid ∧ u.level = lvl
    · have hm' : ¬ (u.category_id = cid' ∧ u.level = lvl') := by
        rintro ⟨e1, e2⟩
        exact h ⟨by rw [← e1, hm.1], by rw [← e2, hm.2]⟩
      by_cases hq : qid ∈ u.used_question_ids
      · rw [ensure_usage_entry, if_pos hm, if_pos hq]
      · rw [ensure_usage_entry, if_pos hm, if_neg hq, get_used_cons_neg _ _ _ _ hm',
          get_used_cons_neg
            ⟨u.category_id, u.level, u.used_question_ids ++ [qid]⟩ rest cid' lvl' hm']
    · by_cases hm' : u.category_id = cid' ∧ u.level = lvl'
      · rw [ensure_usage_entry, if_neg hm,
          get_used_cons_pos _ _ _ _ hm', get_used_cons_pos _ _ _ _ hm']
      · rw [ensure_usage_entry, if_neg hm,
          get_used_cons_neg _ _ _ _ hm', get_used_cons_neg _ _ _ _ hm']
        exact ih

lemma apply_patch_preserves (m : Match) (nA nB aA aB : Option String) (now : Nat) :
    (apply_patch m nA nB aA aB now).teamA.score = m.teamA.score ∧
    (apply_patch m nA nB aA aB now).teamB.score = m.teamB.score ∧
    (apply_patch m nA nB aA aB now).rounds = m.rounds ∧
    (apply_patch m nA nB aA aB now).usage = m.usage ∧
    (apply_patch m nA nB aA aB now).settings = m.settings ∧
    (apply_patch m nA nB aA aB now).status = m.status ∧
    (apply_patch m nA nB aA aB now).created_by_user_id = m.created_by_user_id := by
  cases nA <;> cases nB <;> cases aA <;> cases aB <;> simp [apply_patch]

lemma next_question_ok_inv {pool : List Question} {m : Match} {user_id category_id : Nat}
    {level : Level} {now : Nat} {m' : Match} {resp : NextQuestionResponse}
    (h : next_question pool (some m) user_id category_id level now = .ok (m', resp)) :
    ∃ q, m.created_by_user_id = user_id ∧ m.status = .active ∧
      category_id ∈ m.selected_category_ids ∧
      (get_used_question_ids_for_level m.usage category_id level).length <
        get_questions_per_level m.settings level ∧
      pick_next_question pool category_id level
        (get_used_question_ids_for_level m.usage category_id level) = some q ∧
      m' = { m with
             rounds := m.rounds ++
               [mk_round category_id level q.id (m.rounds.length + 1) now]
             usage := ensure_usage_entry m.usage category_id level q.id
             updated_at := now } ∧
      resp = { round_no := m.rounds.length + 1
               timer_seconds := m.settings.timer_seconds
               category_id := category_id
               level := level
               points := LEVEL_POINTS level
               question := { id := q.id, prompt := q.prompt,
                             hint_available := q.hint.enabled } } := by
  simp only [next_question] at h
  split at h
  · exact absurd h (by simp)
  split at h
  · exact absurd h (by simp)
  split at h
  · exact absurd h (by simp)
  split at h
  · exact absurd h (by simp)
  next h1 h2 h3 h4 =>
    split at h
    · exact absurd h (by simp)
    next q hq =>
      simp only [Except.ok.injEq, Prod.mk.injEq] at h
      exact ⟨q, not_not.mp h1, not_not.mp h2, not_not.mp h3,
        Nat.lt_of_not_le h4, hq, h.1.symm, h.2.symm⟩

lemma judge_round_ok_inv {m : Match} {user_id round_no : Nat} {sel : Judge} {now : Nat}
    {m' : Match} {resp : JudgeResponse}
    (h : judge_round (some m) user_id round_no sel now = .ok (m', resp)) :
    ∃ r, m.created_by_user_id = user_id ∧ m.status = .active ∧
      find_round m.rounds round_no = some r ∧
      r.judge_selection = none ∧
      m' = { m with
             rounds := set_judge_fields m.rounds round_no sel (scored_team_for sel)
               (scored_points_for sel r.points)
             teamA := { m.teamA with score := m.teamA.score +
               (if scored_team_for sel = some Team.A then scored_points_for sel r.points else 0) }
             teamB := { m.teamB with score := m.teamB.score +
               (if scored_team_for sel = some Team.B then scored_points_for sel r.points else 0) }
             updated_at := now } := by
  simp only [judge_round] at h
  split at h
  · exact absurd h (by simp)
  split at h
  · exact absurd h (by simp)
  next h1 h2 =>
    split at h
    · exact absurd h (by simp)
    next r hr =>
      split at h
      · exact absurd h (by simp)
      next h3 =>
        simp only [Except.ok.injEq, Prod.mk.injEq] at h
        exact ⟨r, not_not.mp h1, not_not.mp h2, hr, not_not.mp h3, h.1.symm⟩

lemma finish_match_ok_inv {m : Match} {user_id now : Nat} {m' : Match}
    {resp : FinishResponse}
    (h : finish_match (some m) user_id now = .ok (m', resp)) :
    m.created_by_user_id = user_id ∧ m.status ≠ .finished ∧
    m' = { m with status := .finished, finished_at := some now, updated_at := now } ∧
    resp = mk_finish_response m := by
  simp only [finish_match] at h
  split at h
  · exact absurd h (by simp)
  split at h
  · exact absurd h (by simp)
  next h1 h2 =>
    simp only [Except.ok.injEq, Prod.mk.injEq] at h
    exact ⟨not_not.mp h1, h2, h.1.symm, h.2.symm⟩

lemma patch_teams_ok_inv {m : Match} {user_id : Nat}
    {nA nB aA aB : Option String} {now : Nat} {m' : Match}
    (h : patch_teams (some m) user_id nA nB aA aB now = .ok m') :
    m.created_by_user_id = user_id ∧ m.status = .active ∧
    m' = apply_patch m nA nB aA aB now := by
  simp only [patch_teams] at h
  split at h
  · exact absurd h (by simp)
  split at h
  · exact absurd h (by simp)
  next h1 h2 =>
    simp only [Except.ok.injEq] at h
    exact ⟨not_not.mp h1, not_not.mp h2, h.symm⟩

/-- C1: for every match, at every point in time (after creation and after
any sequence of successful nextQuestion/judgeRound/finishMatch/patchTeams
operations), `teams.A.score + teams.B.score` equals the sum of
`scored_points` over all rounds whose `judge_selection` is non-null, and
scores start at 0 at creation. -/
theorem claim_C1_score_invariant :
    (∀ m, Reachable m → m.teamA.score + m.teamB.score = scored_sum m.rounds) ∧
    (∀ user_id cids a b t now,
      (create_match user_id cids a b t now).teamA.score = 0 ∧
      (create_match user_id cids a b t now).teamB.score = 0) := by
  constructor
  · intro m hm
    induction hm with
    | create user_id cids a b t now => simp [create_match, scored_sum]
    | nextQ pool user_id category_id level now hr hok ih =>
      obtain ⟨q, _, _, _, _, _, hm', _⟩ := next_question_ok_inv hok
      subst hm'
      rw [scored_sum_append]
      simpa [scored_sum, mk_round] using ih
    | judge user_id round_no sel now hr hok ih =>
      obtain ⟨r, _, _, hfind, hnone, hm'⟩ := judge_round_ok_inv hok
      subst hm'
      rw [scored_sum_set_judge_fields _ _ _ _ _ _ hfind hnone]
      cases sel <;> simp [scored_team_for, scored_points_for] <;> omega
    | finish user_id now hr hok ih =>
      obtain ⟨_, _, hm', _⟩ := finish_match_ok_inv hok
      subst hm'
      simpa using ih
    | patch user_id nA nB aA aB now hr hok ih =>
      obtain ⟨_, _, hm'⟩ := patch_teams_ok_inv hok
      subst hm'
      obtain ⟨hA, hB, hR, -⟩ := apply_patch_preserves _ nA nB aA aB now
      rw [hA, hB, hR]
      exact ih
  · intro user_id cids a b t now
    exact ⟨rfl, rfl⟩

theorem claim_C1_score_invariant_witness :
    (create_match 7 [2] "A" "B" none 0).teamA.score +
        (create_match 7 [2] "A" "B" none 0).teamB.score =
      scored_sum (create_match 7 [2] "A" "B" none 0).rounds :=
  claim_C1_score_invariant.1 _ (Reachable.create 7 [2] "A" "B" none 0)

/-- C2: for every reachable match and every (category, level) pair, the
used-question list never exceeds `questions_per_level` (default 2), and a
`nextQuestion` call made on an active owned match with a selected category
when the used count has reached the quota always fails with
`LevelQuotaExceeded`, carrying the quota value in the error detail (no
state is returned, so the match is unchanged). -/
theorem claim_C2_level_quota :
    (∀ m, Reachable m → ∀ category_id level,
      (get_used_question_ids_for_level m.usage category_id level).length ≤
        get_questions_per_level m.settings level) ∧
    (∀ t level, get_questions_per_level (default_settings t) level =
      DEFAULT_QUESTIONS_PER_LEVEL) ∧
    (∀ pool m user_id category_id level now,
      m.created_by_user_id = user_id → m.status = .active →
      category_id ∈ m.selected_category_ids →
      get_questions_per_level m.settings level ≤
        (get_used_question_ids_for_level m.usage category_id level).length →
      next_question pool (some m) user_id category_id level now =
        .error (.levelQuotaExceeded category_id level
          (get_questions_per_level m.settings level))) := by
  refine ⟨?_, ?_, ?_⟩
  · intro m hm
    induction hm with
    | create user_id cids a b t now =>
      intro category_id level
      simp [create_match, get_used_question_ids_for_level]
    | nextQ pool user_id category_id level now hr hok ih =>
      intro cid' lvl'
      obtain ⟨q, _, _, _, hlt, _, hm', _⟩ := next_question_ok_inv hok
      subst hm'
      dsimp only
      by_cases hcl : cid' = category_id ∧ lvl' = level
      · obtain ⟨rfl, rfl⟩ := hcl
        rw [get_used_ensure_self]
        split
        · exact Nat.le_of_lt hlt
        · simpa using hlt
      · rw [get_used_ensure_other _ _ _ _ _ _ hcl]
        exact ih cid' lvl'
    | judge user_id round_no sel now hr hok ih =>
      obtain ⟨r, _, _, _, _, hm'⟩ := judge_round_ok_inv hok
      subst hm'
      exact ih
    | finish user_id now hr hok ih =>
      obtain ⟨_, _, hm', _⟩ := finish_match_ok_inv hok
      subst hm'
      exact ih
    | patch user_id nA nB aA aB now hr hok ih =>
      obtain ⟨_, _, hm'⟩ := patch_teams_ok_inv hok
      subst hm'
      intro cid' lvl'
      obtain ⟨-, -, -, hU, hS, -⟩ := apply_patch_preserves _ nA nB aA aB now
      rw [hU, hS]
      exact ih cid' lvl'
  · intro t level
    cases level <;> rfl
  · intro pool m user_id category_id level now h1 h2 h3 h4
    simp only [next_question]
    rw [if_neg (not_not_intro h1), if_neg (not_not_intro h2),
      if_neg (not_not_intro h3), if_pos h4]

theorem claim_C2_level_quota_witness :
    (get_used_question_ids_for_level (create_match 7 [2] "A" "B" none 0).usage 2
        Level.one).length ≤
      get_questions_per_level (create_match 7 [2] "A" "B" none 0).settings Level.one ∧
    next_question []
      (some
        { created_by_user_id := 7, mode := "team", status := .active,
          selected_category_ids := [2],
          teamA := { name := "A", avatar_key := none, score := 0 },
          teamB := { name := "B", avatar_key := none, score := 0 },
          settings := default_settings none,
          usage := [{ category_id := 2, level := .one, used_question_ids := [10, 11] }],
          rounds := [], finished_at := none, created_at := 0, updated_at := 0 })
      7 2 Level.one 5 =
      .error (.levelQuotaExceeded 2 Level.one
        (get_questions_per_level (default_settings none) Level.one)) :=
  ⟨claim_C2_level_quota.1 _ (Reachable.create 7 [2] "A" "B" none 0) 2 .one,
   claim_C2_level_quota.2.2 [] _ 7 2 .one 5 rfl rfl (by decide) (by decide)⟩

lemma judge_round_already_judged (m : Match) (user_id round_no : Nat) (sel : Judge)
    (now : Nat) (r : Round)
    (h1 : m.created_by_user_id = user_id) (h2 : m.status = .active)
    (hf : find_round m.rounds round_no = some r)
    (hj : r.judge_selection ≠ none) :
    judge_round (some m) user_id round_no sel now =
      .error (.roundAlreadyJudged round_no) := by
  simp only [judge_round]
  rw [if_neg (not_not_intro h1), if_neg (not_not_intro h2)]
  simp only [hf]
  rw [if_pos hj]

/-- C3: judging is write-once per round.  On an active owned match, a
`judgeRound` call for a round whose `judge_selection` is already non-null
always fails with `RoundAlreadyJudged`; in particular, after one successful
judgment of a round, a second `judgeRound` call on that round (with any
selection) always fails with `RoundAlreadyJudged` — the failed call returns
no updated state, so the judge fields and both team scores stay exactly as
the first judgment set them. -/
theorem claim_C3_round_already_judged :
    (∀ (m : Match) (user_id round_no : Nat) (sel : Judge) (now : Nat) (r : Round),
      m.created_by_user_id = user_id → m.status = .active →
      find_round m.rounds round_no = some r → r.judge_selection ≠ none →
      judge_round (some m) user_id round_no sel now =
        .error (.roundAlreadyJudged round_no)) ∧
    (∀ (m : Match) (user_id round_no : Nat) (sel : Judge) (now : Nat) (m' : Match)
      (resp : JudgeResponse) (sel' : Judge) (now' : Nat),
      judge_round (some m) user_id round_no sel now = .ok (m', resp) →
      judge_round (some m') user_id round_no sel' now' =
        .error (.roundAlreadyJudged round_no)) := by
  constructor
  · intro m user_id round_no sel now r h1 h2 hf hj
    exact judge_round_already_judged m user_id round_no sel now r h1 h2 hf hj
  · intro m user_id round_no sel now m' resp sel' now' hok
    obtain ⟨r, h1, h2, hf, hnone, hm'⟩ := judge_round_ok_inv hok
    subst hm'
    exact judge_round_already_judged _ user_id round_no sel' now' _ h1 h2
      (find_round_set_judge_fields _ _ _ _ _ _ hf) (by simp)

theorem claim_C3_round_already_judged_witness :
    judge_round
      (some
        { created_by_user_id := 7, mode := "team", status := .active,
          selected_category_ids := [2],
          teamA := { name := "A", avatar_key := none, score := 100 },
          teamB := { name := "B", avatar_key := none, score := 0 },
          settings := default_settings none,
          usage := [{ category_id := 2, level := .one, used_question_ids := [10] }],
          rounds := [{ round_no := 1, category_id := 2, level := .one, points := 100,
                       question_id := 10, judge_selection := some .TEAM_A,
                       scored_team := some .A, scored_points := 100, created_at := 0 }],
          finished_at := none, created_at := 0, updated_at := 5 })
      7 1 Judge.TEAM_B 6 = .error (.roundAlreadyJudged 1) :=
  claim_C3_round_already_judged.2
    { created_by_user_id := 7, mode := "team", status := .active,
      selected_category_ids := [2],
      teamA := { name := "A", avatar_key := none, score := 0 },
      teamB := { name := "B", avatar_key := none, score := 0 },
      settings := default_settings none,
      usage := [{ category_id := 2, level := .one, used_question_ids := [10] }],
      rounds := [{ round_no := 1, category_id := 2, level := .one, points := 100,
                   question_id := 10, judge_selection := none,
                   scored_team := none, scored_points := 0, created_at := 0 }],
      finished_at := none, created_at := 0, updated_at := 0 }
    7 1 .TEAM_A 5 _
    { scoresA := 100, scoresB := 0,
      last_round := { round_no := 1, judge_selection := .TEAM_A, scored_points := 100 } }
    .TEAM_B 6 rfl

/-- C4: `consumeRound` decrements `rounds_balance` by 1 exactly when the
conditional-update guard `rounds_balance > 0` holds, and otherwise fails
with the debit-guard error (code `NO_ROUNDS_AVAILABLE`, the spec's
`InsufficientRounds`), returning no updated record, so the balance is
unchanged; under the data-model invariant `rounds_balance ≥ 0`, the guard
fails exactly when the balance is 0. -/
theorem claim_C4_consume_round : ∀ u : UserRec,
    (0 < u.rounds_balance →
      consume_round (some u) = .ok { u with rounds_balance := u.rounds_balance - 1 }) ∧
    (u.rounds_balance ≤ 0 → consume_round (some u) = .error .noRoundsAvailable) ∧
    (0 ≤ u.rounds_balance →
      (consume_round (some u) = .error .noRoundsAvailable ↔ u.rounds_balance = 0)) := by
  intro u
  refine ⟨?_, ?_, ?_⟩
  · intro h
    simp [consume_round, h]
  · intro h
    simp [consume_round, not_lt.mpr h]
  · intro h
    by_cases hpos : 0 < u.rounds_balance
    · simp only [consume_round, if_pos hpos]
      constructor
      · intro habs
        exact absurd habs (by simp)
      · intro h0
        omega
    · simp only [consume_round, if_neg hpos]
      constructor
      · intro _
        omega
      · intro _
        trivial

theorem claim_C4_consume_round_witness :
    consume_round (some { free_round_used := true, rounds_balance := 1 }) =
        .ok { free_round_used := true, rounds_balance := 0 } ∧
    consume_round (some { free_round_used := true, rounds_balance := 0 }) =
        .error .noRoundsAvailable :=
  ⟨(claim_C4_consume_round { free_round_used := true, rounds_balance := 1 }).1 (by decide),
   (claim_C4_consume_round { free_round_used := true, rounds_balance := 0 }).2.1 (by decide)⟩

/-- C5: `canStartMatch` is eligible iff the record exists and the free round
is unused or the paid balance is positive; an unused free round takes
priority (`useFreeRound = true` even when the balance is positive); a
missing user record yields `(false, false)` (fail closed, no error); the
function reads the record and performs no mutation. -/
theorem claim_C5_can_start_match : ∀ u : Option UserRec,
    ((can_start_match u).1 = true ↔
      ∃ r, u = some r ∧ (r.free_round_used = false ∨ 0 < r.rounds_balance)) ∧
    (∀ r, u = some r → r.free_round_used = false →
      can_start_match u = (true, true)) ∧
    can_start_match none = (false, false) := by
  intro u
  refine ⟨?_, ?_, rfl⟩
  · cases u with
    | none => simp [can_start_match]
    | some r =>
      by_cases hf : r.free_round_used
      · by_cases hb : 0 < r.rounds_balance
        · simp [can_start_match, hf, hb]
        · simp [can_start_match, hf, hb]
      · simp [can_start_match, hf]
  · intro r hu hf
    subst hu
    simp [can_start_match, hf]

theorem claim_C5_can_start_match_witness :
    ((can_start_match (some { free_round_used := false, rounds_balance := 3 })).1 = true ↔
      ∃ r, (some { free_round_used := false, rounds_balance := 3 } : Option UserRec) = some r ∧
        (r.free_round_used = false ∨ 0 < r.rounds_balance)) ∧
    can_start_match (some { free_round_used := false, rounds_balance := 3 }) = (true, true) :=
  ⟨(claim_C5_can_start_match (some { free_round_used := false, rounds_balance := 3 })).1,
   (claim_C5_can_start_match (some { free_round_used := false, rounds_balance := 3 })).2.1
     _ rfl rfl⟩

/-- C6: a successful `finishMatch` reports winner `TEAM_A` / `TEAM_B` by
strict score comparison (winning team's display name attached) and `DRAW`
with a null name on equal scores, a summary counting rounds by
`judge_selection` outcome with `total_rounds = len(rounds)`, and the final
scores; it changes no team score or round field — it only sets
`status = finished` and stamps `finished_at`. -/
theorem claim_C6_finish_outcome :
    ∀ (m : Match) (user_id now : Nat) (m' : Match) (resp : FinishResponse),
    finish_match (some m) user_id now = .ok (m', resp) →
    (m.teamB.score < m.teamA.score →
      resp.winner = { result := .TEAM_A, name := some m.teamA.name }) ∧
    (m.teamA.score < m.teamB.score →
      resp.winner = { result := .TEAM_B, name := some m.teamB.name }) ∧
    (m.teamA.score = m.teamB.score →
      resp.winner = { result := .DRAW, name := none }) ∧
    resp.scoresA = m.teamA.score ∧ resp.scoresB = m.teamB.score ∧
    resp.summary =
      { teamA_correct :=
          m.rounds.countP (fun r => decide (r.judge_selection = some .TEAM_A))
        teamB_correct :=
          m.rounds.countP (fun r => decide (r.judge_selection = some .TEAM_B))
        no_one := m.rounds.countP (fun r => decide (r.judge_selection = some .NO_ONE))
        total_rounds := m.rounds.length } ∧
    m'.teamA = m.teamA ∧ m'.teamB = m.teamB ∧ m'.rounds = m.rounds ∧
    m'.usage = m.usage ∧ m'.status = .finished ∧ m'.finished_at = some now := by
  intro m user_id now m' resp hok
  obtain ⟨h1, h2, hm', hresp⟩ := finish_match_ok_inv hok
  subst hm'
  subst hresp
  refine ⟨?_, ?_, ?_, rfl, rfl, rfl, rfl, rfl, rfl, rfl, rfl, rfl⟩
  · intro hgt
    simp [mk_finish_response, hgt]
  · intro hgt
    simp [mk_finish_response, hgt, Nat.lt_asymm hgt]
  · intro heq
    simp [mk_finish_response, heq]

theorem claim_C6_finish_outcome_witness :
    ({ scoresA := 100, scoresB := 0,
       winner := { result := .TEAM_A, name := some "A" },
       summary := { teamA_correct := 1, teamB_correct := 0, no_one := 1,
                    total_rounds := 2 } } : FinishResponse).winner =
      { result := .TEAM_A, name := some "A" } :=
  (claim_C6_finish_outcome
    { created_by_user_id := 7, mode := "team", status := .active,
      selected_category_ids := [2],
      teamA := { name := "A", avatar_key := none, score := 100 },
      teamB := { name := "B", avatar_key := none, score := 0 },
      settings := default_settings none,
      usage := [{ category_id := 2, level := .one, used_question_ids := [10, 11] }],
      rounds := [{ round_no := 1, category_id := 2, level := .one, points := 100,
                   question_id := 10, judge_selection := some .TEAM_A,
                   scored_team := some .A, scored_points := 100, created_at := 0 },
                 { round_no := 2, category_id := 2, level := .one, points := 100,
                   question_id := 11, judge_selection := some .NO_ONE,
                   scored_team := none, scored_points := 0, created_at := 1 }],
      finished_at := none, created_at := 0, updated_at := 1 }
    7 9
    { created_by_user_id := 7, mode := "team", status := .finished,
      selected_category_ids := [2],
      teamA := { name := "A", avatar_key := none, score := 100 },
      teamB := { name := "B", avatar_key := none, score := 0 },
      settings := default_settings none,
      usage := [{ category_id := 2, level := .one, used_question_ids := [10, 11] }],
      rounds := [{ round_no := 1, category_id := 2, level := .one, points := 100,
                   question_id := 10, judge_selection := some .TEAM_A,
                   scored_team := some .A, scored_points := 100, created_at := 0 },
                 { round_no := 2, category_id := 2, level := .one, points := 100,
                   question_id := 11, judge_selection := some .NO_ONE,
                   scored_team := none, scored_points := 0, created_at := 1 }],
      finished_at := some 9, created_at := 0, updated_at := 9 }
    { scoresA := 100, scoresB := 0,
      winner := { result := .TEAM_A, name := some "A" },
      summary := { teamA_correct := 1, teamB_correct := 0, no_one := 1,
                   total_rounds := 2 } }
    rfl).1 (by decide)

/-- C7: calling `finishMatch` (as the owner) on a match whose status is
already `finished` always fails with `MatchAlreadyFinished`; the failed
call returns no updated state, so scores, rounds, summary-relevant fields
and status are untouched. -/
theorem claim_C7_finish_twice :
    ∀ (m : Match) (user_id now : Nat), m.created_by_user_id = user_id →
    m.status = .finished →
    finish_match (some m) user_id now = .error .matchAlreadyFinished := by
  intro m user_id now h1 h2
  simp only [finish_match]
  rw [if_neg (not_not_intro h1), if_pos h2]

theorem claim_C7_finish_twice_witness :
    finish_match
      (some
        { created_by_user_id := 7, mode := "team", status := .finished,
          selected_category_ids := [2],
          teamA := { name := "A", avatar_key := none, score := 100 },
          teamB := { name := "B", avatar_key := none, score := 0 },
          settings := default_settings none, usage := [], rounds := [],
          finished_at := some 9, created_at := 0, updated_at := 9 })
      7 11 = .error .matchAlreadyFinished :=
  claim_C7_finish_twice _ 7 11 rfl rfl

/-- C10: `finishMatch` called by the owner on a match whose status is
`abandoned` succeeds (only `finished` is rejected): it sets
`status = finished`, stamps `finished_at`, and returns scores and summary
computed from the accumulated state. -/
theorem claim_C10_finish_abandoned :
    ∀ (m : Match) (user_id now : Nat), m.created_by_user_id = user_id →
    m.status = .abandoned →
    ∃ m' resp, finish_match (some m) user_id now = .ok (m', resp) ∧
      m'.status = .finished ∧ m'.finished_at = some now ∧
      m'.teamA = m.teamA ∧ m'.teamB = m.teamB ∧ m'.rounds = m.rounds ∧
      resp.scoresA = m.teamA.score ∧ resp.scoresB = m.teamB.score ∧
      resp.summary =
        { teamA_correct :=
            m.rounds.countP (fun r => decide (r.judge_selection = some .TEAM_A))
          teamB_correct :=
            m.rounds.countP (fun r => decide (r.judge_selection = some .TEAM_B))
          no_one := m.rounds.countP (fun r => decide (r.judge_selection = some .NO_ONE))
          total_rounds := m.rounds.length } := by
  intro m user_id now h1 h2
  refine ⟨{ m with status := .finished, finished_at := some now, updated_at := now },
    mk_finish_response m, ?_, rfl, rfl, rfl, rfl, rfl, rfl, rfl, rfl⟩
  simp only [finish_match]
  rw [if_neg (not_not_intro h1), if_neg (by simp [h2])]

theorem claim_C10_finish_abandoned_witness :
    ∃ m' resp,
      finish_match
        (some
          { created_by_user_id := 7, mode := "team", status := .abandoned,
            selected_category_ids := [2],
            teamA := { name := "A", avatar_key := none, score := 0 },
            teamB := { name := "B", avatar_key := none, score := 0 },
            settings := default_settings none, usage := [], rounds := [],
            finished_at := none, created_at := 0, updated_at := 0 })
        7 4 = .ok (m', resp) ∧
      m'.status = .finished ∧ m'.finished_at = some 4 ∧
      m'.teamA = { name := "A", avatar_key := none, score := 0 } ∧
      m'.teamB = { name := "B", avatar_key := none, score := 0 } ∧
      m'.rounds = [] ∧ resp.scoresA = 0 ∧ resp.scoresB = 0 ∧
      resp.summary =
        { teamA_correct := ([] : List Round).countP
            (fun r => decide (r.judge_selection = some .TEAM_A))
          teamB_correct := ([] : List Round).countP
            (fun r => decide (r.judge_selection = some .TEAM_B))
          no_one := ([] : List Round).countP
            (fun r => decide (r.judge_selection = some .NO_ONE))
          total_rounds := ([] : List Round).length } :=
  claim_C10_finish_abandoned _ 7 4 rfl rfl

/-- C9: every match operation, when the match is missing or the caller is
not the owner, fails with the same parameterless `MatchNotFound` error, so
the two cases are indistinguishable to the caller (no distinct "forbidden"
error, avoiding existence leakage). -/
theorem claim_C9_owner_conflated_not_found :
    ∀ (pool qstore : List Question) (mOpt : Option Match)
      (user_id category_id : Nat) (level : Level) (round_no now : Nat)
      (sel : Judge) (nA nB aA aB : Option String),
    (mOpt = none ∨ ∃ m, mOpt = some m ∧ m.created_by_user_id ≠ user_id) →
    next_question pool mOpt user_id category_id level now = .error .matchNotFound ∧
    judge_round mOpt user_id round_no sel now = .error .matchNotFound ∧
    finish_match mOpt user_id now = .error .matchNotFound ∧
    get_round_hint qstore mOpt user_id round_no = .error .matchNotFound ∧
    get_round_answer qstore mOpt user_id round_no = .error .matchNotFound ∧
    patch_teams mOpt user_id nA nB aA aB now = .error .matchNotFound := by
  rintro pool qstore mOpt user_id category_id level round_no now sel nA nB aA aB
    (rfl | ⟨m, rfl, hown⟩)
  · exact ⟨rfl, rfl, rfl, rfl, rfl, rfl⟩
  · refine ⟨?_, ?_, ?_, ?_, ?_, ?_⟩
    · simp [next_question, hown]
    · simp [judge_round, hown]
    · simp [finish_match, hown]
    · simp [get_round_hint, hown]
    · simp [get_round_answer, hown]
    · simp [patch_teams, hown]

theorem claim_C9_owner_conflated_not_found_witness :
    next_question [] none 7 2 Level.one 0 = .error .matchNotFound ∧
    judge_round none 7 1 Judge.TEAM_A 0 = .error .matchNotFound ∧
    finish_match none 7 0 = .error .matchNotFound ∧
    get_round_hint [] none 7 1 = .error .matchNotFound ∧
    get_round_answer [] none 7 1 = .error .matchNotFound ∧
    patch_teams none 7 none none none none 0 = .error .matchNotFound :=
  claim_C9_owner_conflated_not_found [] [] none 7 2 .one 1 0 .TEAM_A none none none none
    (Or.inl rfl)

/-- Erase a question's secret fields: the answer and the hint content
(everything `next_question` may not reveal). -/
def eraseSecrets (q : Question) : Question :=
  { q with answer := none, hint := { enabled := q.hint.enabled, content := none } }

lemma eraseSecrets_fields {q1 q2 : Question} (h : eraseSecrets q1 = eraseSecrets q2) :
    q1.id = q2.id ∧ q1.category_id = q2.category_id ∧ q1.level = q2.level ∧
    q1.points = q2.points ∧ q1.prompt = q2.prompt ∧
    q1.hint.enabled = q2.hint.enabled ∧ q1.status = q2.status := by
  simp only [eraseSecrets, Question.mk.injEq, Hint.mk.injEq, and_true, true_and] at h
  exact ⟨h.1, h.2.1, h.2.2.1, h.2.2.2.1, h.2.2.2.2.1, h.2.2.2.2.2.1, h.2.2.2.2.2.2⟩

lemma pick_next_question_erase (p1 p2 : List Question)
    (h : p1.map eraseSecrets = p2.map eraseSecrets) (cid : Nat) (lvl : Level)
    (used : List Nat) :
    (pick_next_question p1 cid lvl used).map eraseSecrets =
      (pick_next_question p2 cid lvl used).map eraseSecrets := by
  induction p1 generalizing p2 with
  | nil =>
    obtain rfl : p2 = [] := by simpa using h.symm
    rfl
  | cons q1 t1 ih =>
    cases p2 with
    | nil => simp at h
    | cons q2 t2 =>
      simp only [List.map_cons, List.cons.injEq] at h
      obtain ⟨hq, ht⟩ := h
      obtain ⟨hid, hcat, hlvl, hpts, hprompt, hhint, hstatus⟩ := eraseSecrets_fields hq
      simp only [pick_next_question]
      by_cases hc : q1.category_id = cid ∧ q1.level = lvl ∧
          q1.points = LEVEL_POINTS lvl ∧ q1.status = "active" ∧ ¬ q1.id ∈ used
      · rw [if_pos hc, if_pos (by rw [← hid, ← hcat, ← hlvl, ← hpts, ← hstatus]; exact hc)]
        simpa using hq
      · rw [if_neg hc, if_neg (by rw [← hid, ← hcat, ← hlvl, ← hpts, ← hstatus]; exact hc)]
        exact ih t2 ht

/-- C8: the `nextQuestion` result (both the returned payload, which carries
only the question id, the prompt and `hint_available`, and the updated
match state) is unchanged under any change to the questions' answer and
hint-content fields: pools that agree after erasing those secrets produce
identical results, so the answer and the hint content can never leak. -/
theorem claim_C8_no_secret_leakage :
    ∀ (pool1 pool2 : List Question) (mOpt : Option Match)
      (user_id category_id : Nat) (level : Level) (now : Nat),
    pool1.map eraseSecrets = pool2.map eraseSecrets →
    next_question pool1 mOpt user_id category_id level now =
      next_question pool2 mOpt user_id category_id level now := by
  intro pool1 pool2 mOpt user_id category_id level now h
  cases mOpt with
  | none => rfl
  | some m =>
    have hpick := pick_next_question_erase pool1 pool2 h category_id level
      (get_used_question_ids_for_level m.usage category_id level)
    simp only [next_question]
    cases hp1 : pick_next_question pool1 category_id level
        (get_used_question_ids_for_level m.usage category_id level) with
    | none =>
      cases hp2 : pick_next_question pool2 category_id level
          (get_used_question_ids_for_level m.usage category_id level) with
      | none => simp [hp1, hp2]
      | some q2 =>
        rw [hp1, hp2] at hpick
        simp at hpick
    | some q1 =>
      cases hp2 : pick_next_question pool2 category_id level
          (get_used_question_ids_for_level m.usage category_id level) with
      | none =>
        rw [hp1, hp2] at hpick
        simp at hpick
      | some q2 =>
        rw [hp1, hp2] at hpick
        simp only [Option.map_some'] at hpick
        obtain ⟨hid, hcat, hlvl, hpts, hprompt, hhint, hstatus⟩ :=
          eraseSecrets_fields (Option.some.inj hpick)
        simp only [hp1, hp2]
        rw [hid, hprompt, hhint]

theorem claim_C8_no_secret_leakage_witness :
    (([{ id := 10, category_id := 2, level := .one, points := 100, prompt := "p",
         hint := { enabled := true, content := some "the hint" },
         answer := some "the answer", status := "active" }] :
        List Question).map eraseSecrets =
      ([{ id := 10, category_id := 2, level := .one, points := 100, prompt := "p",
          hint := { enabled := true, content := none },
          answer := none, status := "active" }] :
        List Question).map eraseSecrets) ∧
    next_question
        [{ id := 10, category_id := 2, level := .one, points := 100, prompt := "p",
           hint := { enabled := true, content := some "the hint" },
           answer := some "the answer", status := "active" }]
        (some (create_match 7 [2] "A" "B" none 0)) 7 2 .one 5 =
      next_question
        [{ id := 10, category_id := 2, level := .one, points := 100, prompt := "p",
           hint := { enabled := true, content := none },
           answer := none, status := "active" }]
        (some (create_match 7 [2] "A" "B" none 0)) 7 2 .one 5 :=
  ⟨rfl, claim_C8_no_secret_leakage _ _ _ 7 2 .one 5 rfl⟩
